import Mathlib

/-!
Verification development for the dev-ecosystem-core workflow validator,
error taxonomy and logging helpers.

The definitions below are a shallow embedding of the TypeScript sources:

* src/schemas/workflow.schema.zod.ts  (OrbytWorkflowSchema and
  ValidatedOrbytWorkflowSchema): structural validation with defaults,
  followed by three refinements (duplicate step ids, dependency
  existence, cron schedule).  Zod semantics modelled here: an object
  schema checks its keys in declaration order and collects one issue per
  violated check; if the structural pass produced any issue the
  refinements do not run; otherwise the three refinements run in order,
  each contributing at most one issue.
* src/exit-codes/ExitCodes.ts: the exit-code registry, isRetryable.
* errors/ErrorTypes.ts: ErrorType, ErrorSeverity, isErrorTypeRetryable.
* errors/{orbyt,vaulta,devforge,mediaproc}.errors.ts: each concrete
  error class with its component, category (type), severity, retryable
  flag and exit code, tabulated as errorRegistry.
* src/logging/LogFormat.ts: redactSensitive over JSON-like trees.

Raw input trees are modelled by Raw* structures covering the fields the
validated behaviour depends on: fields of the schema that are optional,
carry no default and take part in no refinement (metadata, annotations,
secrets, inputs, context, defaults, permissions, resources, outputs and
the future-safe extension blocks) pass through structural validation
unchanged and are omitted from the embedding; the inputs considered here
leave them absent, which the schema accepts.
-/

/-! ## Character and string helpers (JS regex / String methods) -/

/-- Character class [a-zA-Z0-9_-] used by the step id and uses regexes. -/
def idBodyChar (c : Char) : Bool :=
  c.isAlphanum || c = '_' || c = '-'

/-- Split a character list at every occurrence of a separator, keeping
empty segments, like String.split on a single-character separator. -/
def splitOnChar (sep : Char) : List Char → List (List Char)
  | [] => [[]]
  | c :: rest =>
    let r := splitOnChar sep rest
    if c = sep then [] :: r
    else
      match r with
      | [] => [[c]]
      | h :: t => (c :: h) :: t

/-- A nonempty all-digit character group. -/
def digitGroup (l : List Char) : Bool :=
  !l.isEmpty && l.all Char.isDigit

/-- Regex from OrbytWorkflowSchema.version:
matches two or three dot-separated nonempty digit groups. -/
def semverMatch (s : String) : Bool :=
  let parts := splitOnChar '.' s.toList
  (parts.length = 2 || parts.length = 3) && parts.all digitGroup

/-- Regex from StepSchema.id: a letter followed by
alphanumeric, underscore or hyphen characters. -/
def stepIdMatch (s : String) : Bool :=
  match s.toList with
  | [] => false
  | c :: rest => c.isAlpha && rest.all idBodyChar

/-- Regex from StepSchema.uses:
at least two dot-separated nonempty [a-zA-Z0-9_-] groups. -/
def usesMatch (s : String) : Bool :=
  let parts := splitOnChar '.' s.toList
  decide (2 ≤ parts.length) && parts.all (fun p => !p.isEmpty && p.all idBodyChar)

/-- Regex from StepSchema.timeout: digits followed by ms, s, m or h. -/
def timeoutMatch (s : String) : Bool :=
  match s.toList.reverse with
  | 's' :: 'm' :: rest => digitGroup rest.reverse
  | 's' :: rest => digitGroup rest.reverse
  | 'm' :: rest => digitGroup rest.reverse
  | 'h' :: rest => digitGroup rest.reverse
  | _ => false

/-- Containment of one character sequence inside another,
the model of JS String.includes. -/
def containsChars (needle : List Char) : List Char → Bool
  | [] => needle.isEmpty
  | c :: rest => needle.isPrefixOf (c :: rest) || containsChars needle rest

/-- ASCII lower-casing of a character list, the model of JS toLowerCase. -/
def lowerChars (l : List Char) : List Char :=
  l.map Char.toLower

/-! ## Validation issues (Zod issue: path plus message) -/

/-- One component of a Zod issue path: an object key or an array index. -/
inductive PathEntry where
  | key (s : String)
  | idx (n : Nat)
deriving DecidableEq, Repr

/-- A single validation issue: path into the input tree plus message. -/
structure Issue where
  path : List PathEntry
  message : String
deriving DecidableEq, Repr

/-! ## Data model: raw (decoded input) and typed (defaulted) trees -/

/-- Raw step as decoded from input, before defaults.  Optional fields of
the step schema that carry no default and take part in no refinement
(name, with, when, retry, outputs, env, usage, ref, requires, hints,
contracts, profiles, onFailure, telemetry, rollback) are omitted; the
inputs modelled here leave them absent. -/
structure RawStep where
  id : String
  uses : String
  needs : Option (List String) := none
  continueOnError : Option Bool := none
  timeout : Option String := none
deriving DecidableEq, Repr

/-- Typed step after structural validation:
continueOnError has received its default. -/
structure Step where
  id : String
  uses : String
  needs : Option (List String)
  continueOnError : Bool
  timeout : Option String
deriving DecidableEq, Repr

/-- Raw trigger before the discriminated union is resolved.  The
optional filter maps of event and webhook triggers are omitted. -/
structure RawTrigger where
  type : String
  schedule : Option String := none
  source : Option String := none
  endpoint : Option String := none
deriving DecidableEq, Repr

/-- Typed trigger: discriminated union on the type field. -/
inductive Trigger where
  | manual
  | cron (schedule : String)
  | event (source : String)
  | webhook (endpoint : String)
deriving DecidableEq, Repr

/-- Raw policies object before defaults. -/
structure RawPolicies where
  failure : Option String := none
  concurrency : Option Int := none
  sandbox : Option String := none
deriving DecidableEq, Repr

/-- Typed policies after defaults (stop, 1, basic). -/
structure Policies where
  failure : String
  concurrency : Int
  sandbox : String
deriving DecidableEq, Repr

/-- Raw workflow body: the steps array. -/
structure RawWorkflowBody where
  steps : List RawStep
deriving DecidableEq, Repr

/-- Typed workflow body. -/
structure WorkflowBody where
  steps : List Step
deriving DecidableEq, Repr

/-- Raw root object.  See the module comment for the omitted inert
optional fields. -/
structure RawWorkflow where
  version : String
  kind : Option String := none
  triggers : Option (List RawTrigger) := none
  policies : Option RawPolicies := none
  workflow : RawWorkflowBody
deriving DecidableEq, Repr

/-- Typed, defaulted workflow definition:
kind has received its default. -/
structure Workflow where
  version : String
  kind : String
  triggers : Option (List Trigger)
  policies : Option Policies
  workflow : WorkflowBody
deriving DecidableEq, Repr

/-! ## Structural layer (OrbytWorkflowSchema) -/

/-- Allowed kind values. -/
def kindValues : List String :=
  ["workflow", "pipeline", "job", "playbook", "automation"]

/-- Allowed policies.failure values. -/
def failureValues : List String := ["stop", "continue", "isolate"]

/-- Allowed policies.sandbox values. -/
def sandboxValues : List String := ["none", "basic", "strict"]

/-- Path to a field of step number i. -/
def stepPath (i : Nat) (field : String) : List PathEntry :=
  [.key "workflow", .key "steps", .idx i, .key field]

/-- Path to a field of trigger number i. -/
def triggerPath (i : Nat) (field : String) : List PathEntry :=
  [.key "triggers", .idx i, .key field]

/-- Structural issues of one raw step (id regex, uses regex,
timeout regex), in key order. -/
def rawStepIssues (i : Nat) (s : RawStep) : List Issue :=
  (if stepIdMatch s.id then [] else
    [⟨stepPath i "id",
      "Step ID must start with letter and contain only alphanumeric, underscore, or hyphen"⟩])
  ++ (if usesMatch s.uses then [] else
    [⟨stepPath i "uses",
      "uses must be in format: namespace.action or namespace.domain.action"⟩])
  ++ (match s.timeout with
      | none => []
      | some t => if timeoutMatch t then [] else [⟨stepPath i "timeout", "Invalid"⟩])

/-- Typed step from a raw step: continueOnError defaults to false. -/
def buildStep (s : RawStep) : Step :=
  ⟨s.id, s.uses, s.needs, s.continueOnError.getD false, s.timeout⟩

/-- Structural issues of one raw trigger: the discriminated union
requires the discriminator to be known and the variant's required field
to be present (message Required, at the missing key, per Zod). -/
def rawTriggerIssues (i : Nat) (t : RawTrigger) : List Issue :=
  match t.type with
  | "manual" => []
  | "cron" =>
    (match t.schedule with
     | some _ => []
     | none => [⟨triggerPath i "schedule", "Required"⟩])
  | "event" =>
    (match t.source with
     | some _ => []
     | none => [⟨triggerPath i "source", "Required"⟩])
  | "webhook" =>
    (match t.endpoint with
     | some _ => []
     | none => [⟨triggerPath i "endpoint", "Required"⟩])
  | _ => [⟨triggerPath i "type", "Invalid discriminator value"⟩]

/-- Typed trigger from a raw trigger (meaningful when it has no issue). -/
def buildTrigger (t : RawTrigger) : Trigger :=
  match t.type with
  | "cron" => .cron (t.schedule.getD "")
  | "event" => .event (t.source.getD "")
  | "webhook" => .webhook (t.endpoint.getD "")
  | _ => .manual

/-- Structural issues of the policies object (enum membership and the
integer minimum on concurrency), in key order. -/
def rawPoliciesIssues (p : RawPolicies) : List Issue :=
  (match p.failure with
   | none => []
   | some f => if failureValues.contains f then [] else
      [⟨[.key "policies", .key "failure"], "Invalid enum value"⟩])
  ++ (match p.concurrency with
      | none => []
      | some c => if 1 ≤ c then [] else
        [⟨[.key "policies", .key "concurrency"],
          "Number must be greater than or equal to 1"⟩])
  ++ (match p.sandbox with
      | none => []
      | some sb => if sandboxValues.contains sb then [] else
        [⟨[.key "policies", .key "sandbox"], "Invalid enum value"⟩])

/-- Typed policies from a raw policies object, applying the defaults. -/
def buildPolicies (p : RawPolicies) : Policies :=
  ⟨p.failure.getD "stop", p.concurrency.getD 1, p.sandbox.getD "basic"⟩

/-- Issues of a trigger array starting at index i. -/
def triggersIssuesFrom (i : Nat) : List RawTrigger → List Issue
  | [] => []
  | t :: rest => rawTriggerIssues i t ++ triggersIssuesFrom (i + 1) rest

/-- Issues of a step array starting at index i. -/
def stepsIssuesFrom (i : Nat) : List RawStep → List Issue
  | [] => []
  | s :: rest => rawStepIssues i s ++ stepsIssuesFrom (i + 1) rest

/-- Issues of the version field: its semver regex. -/
def versionIssues (v : String) : List Issue :=
  if semverMatch v then [] else
    [⟨[.key "version"], "Version must follow semantic versioning (e.g., 1.0 or 1.0.0)"⟩]

/-- Issues of the kind field: enum membership when present
(absence is filled by the default later). -/
def kindIssues (k : Option String) : List Issue :=
  match k with
  | none => []
  | some k => if kindValues.contains k then [] else
    [⟨[.key "kind"], "Invalid enum value"⟩]

/-- Issues of the optional triggers array. -/
def triggersIssuesOpt (ts : Option (List RawTrigger)) : List Issue :=
  match ts with
  | none => []
  | some ts => triggersIssuesFrom 0 ts

/-- Issues of the optional policies object. -/
def policiesIssuesOpt (p : Option RawPolicies) : List Issue :=
  match p with
  | none => []
  | some p => rawPoliciesIssues p

/-- Issue of the nonempty-steps array minimum. -/
def stepsMinIssues (ss : List RawStep) : List Issue :=
  if 1 ≤ ss.length then [] else
    [⟨[.key "workflow", .key "steps"], "Workflow must have at least one step"⟩]

/-- All structural issues of a raw workflow, in the schema's key order:
version, kind, triggers, policies, workflow.steps (array minimum first,
then per-element issues). -/
def rawWorkflowIssues (r : RawWorkflow) : List Issue :=
  versionIssues r.version
  ++ kindIssues r.kind
  ++ triggersIssuesOpt r.triggers
  ++ policiesIssuesOpt r.policies
  ++ stepsMinIssues r.workflow.steps
  ++ stepsIssuesFrom 0 r.workflow.steps

/-- Typed, defaulted workflow from a raw workflow
(meaningful when there is no structural issue). -/
def buildWorkflow (r : RawWorkflow) : Workflow :=
  ⟨r.version,
   r.kind.getD "workflow",
   r.triggers.map (fun ts => ts.map buildTrigger),
   r.policies.map buildPolicies,
   ⟨r.workflow.steps.map buildStep⟩⟩

/-- The structural layer (OrbytWorkflowSchema.safeParse): the typed
defaulted tree on success, the collected issues on failure. -/
def parseOrbytWorkflow (r : RawWorkflow) : Except (List Issue) Workflow :=
  match rawWorkflowIssues r with
  | [] => .ok (buildWorkflow r)
  | issues => .error issues

/-! ## Refinement layer (ValidatedOrbytWorkflowSchema) -/

/-- The step ids of a typed workflow, in order. -/
def stepIds (w : Workflow) : List String :=
  w.workflow.steps.map (·.id)

/-- JS Set.add: append the element unless already present. -/
def setInsert (l : List String) (x : String) : List String :=
  if l.contains x then l else l ++ [x]

/-- JS new Set(xs): the distinct elements of xs, first occurrences kept. -/
def setOfList (xs : List String) : List String :=
  xs.foldl setInsert []

/-- First refinement: the id list and its set have the same size. -/
def uniqueIdCheck (w : Workflow) : Bool :=
  (stepIds w).length == (setOfList (stepIds w)).length

/-- Second refinement: every needs entry of every step is the id of
some step of the workflow. -/
def needsExistCheck (w : Workflow) : Bool :=
  let ids := setOfList (stepIds w)
  w.workflow.steps.all (fun s => (s.needs.getD []).all (fun d => ids.contains d))

/-- Third refinement: no cron trigger has a falsy (empty) schedule. -/
def cronTriggerCheck (w : Workflow) : Bool :=
  match w.triggers with
  | none => true
  | some ts => ts.all (fun t =>
      match t with
      | .cron s => !(s == "")
      | _ => true)

/-- Issue of the duplicate-id refinement. -/
def duplicateIdIssue : Issue :=
  ⟨[.key "workflow", .key "steps"], "Step IDs must be unique within a workflow"⟩

/-- Issue of the dependency-existence refinement. -/
def depExistIssue : Issue :=
  ⟨[.key "workflow", .key "steps"], "Step dependencies must reference existing step IDs"⟩

/-- Issue of the cron-schedule refinement. -/
def cronScheduleIssue : Issue :=
  ⟨[.key "triggers"], "Cron triggers must have a schedule field"⟩

/-- The three refinements run in order on the typed tree; each failed
refinement contributes exactly one issue. -/
def refinementIssues (w : Workflow) : List Issue :=
  (if uniqueIdCheck w then [] else [duplicateIdIssue])
  ++ (if needsExistCheck w then [] else [depExistIssue])
  ++ (if cronTriggerCheck w then [] else [cronScheduleIssue])

/-- The full validation pipeline
(ValidatedOrbytWorkflowSchema.safeParse): structural layer first; its
issues abort before the refinements; otherwise the refinement issues
decide acceptance. -/
def validatedOrbytWorkflow (r : RawWorkflow) : Except (List Issue) Workflow :=
  match parseOrbytWorkflow r with
  | .error issues => .error issues
  | .ok w =>
    match refinementIssues w with
    | [] => .ok w
    | issues => .error issues

/-! ## Serialization of an accepted definition back to a raw tree -/

/-- Raw step of a typed step: every field is present. -/
def toRawStep (s : Step) : RawStep :=
  ⟨s.id, s.uses, s.needs, some s.continueOnError, s.timeout⟩

/-- Raw trigger of a typed trigger. -/
def toRawTrigger : Trigger → RawTrigger
  | .manual => ⟨"manual", none, none, none⟩
  | .cron sch => ⟨"cron", some sch, none, none⟩
  | .event src => ⟨"event", none, some src, none⟩
  | .webhook ep => ⟨"webhook", none, none, some ep⟩

/-- Raw policies of typed policies. -/
def toRawPolicies (p : Policies) : RawPolicies :=
  ⟨some p.failure, some p.concurrency, some p.sandbox⟩

/-- Raw tree of a typed workflow, as JSON serialization would produce. -/
def toRawWorkflow (w : Workflow) : RawWorkflow :=
  ⟨w.version,
   some w.kind,
   w.triggers.map (fun ts => ts.map toRawTrigger),
   w.policies.map toRawPolicies,
   ⟨w.workflow.steps.map toRawStep⟩⟩

/-! ## Well-formedness of typed values (what a successful parse ensures) -/

/-- The structural checks restated on a typed step. -/
def stepOK (s : Step) : Bool :=
  stepIdMatch s.id && usesMatch s.uses
  && (match s.timeout with
      | none => true
      | some t => timeoutMatch t)

/-- The structural checks restated on typed policies. -/
def policiesOK (p : Policies) : Bool :=
  failureValues.contains p.failure
  && decide (1 ≤ p.concurrency)
  && sandboxValues.contains p.sandbox

/-- The structural checks restated on optional typed policies. -/
def policiesOKOpt (p : Option Policies) : Bool :=
  match p with
  | none => true
  | some p => policiesOK p

/-- The structural checks restated on a typed workflow. -/
def workflowOK (w : Workflow) : Bool :=
  semverMatch w.version
  && kindValues.contains w.kind
  && policiesOKOpt w.policies
  && decide (1 ≤ w.workflow.steps.length)
  && w.workflow.steps.all stepOK

/-- An edge of the step dependency graph: some step with id a lists b
among its needs. -/
def stepEdge (w : Workflow) (a b : String) : Bool :=
  w.workflow.steps.any (fun s => s.id == a && (s.needs.getD []).contains b)

/-! ## Exit codes (src/exit-codes/ExitCodes.ts) -/

namespace ExitCodes

def SUCCESS : Nat := 0
def INVALID_INPUT : Nat := 100
def INVALID_SCHEMA : Nat := 101
def INVALID_FILE : Nat := 102
def INVALID_FORMAT : Nat := 103
def MISSING_REQUIRED_INPUT : Nat := 104
def VALIDATION_FAILED : Nat := 105
def MISSING_CONFIG : Nat := 200
def MISSING_SECRET : Nat := 201
def MISSING_DEPENDENCY : Nat := 202
def ENVIRONMENT_ERROR : Nat := 203
def INVALID_CONFIG : Nat := 204
def SERVICE_UNAVAILABLE : Nat := 205
def WORKFLOW_FAILED : Nat := 300
def STEP_FAILED : Nat := 301
def ADAPTER_FAILED : Nat := 302
def PLUGIN_FAILED : Nat := 303
def TIMEOUT : Nat := 304
def CIRCULAR_DEPENDENCY : Nat := 305
def DEPENDENCY_FAILED : Nat := 306
def RESOURCE_ERROR : Nat := 307
def PERMISSION_DENIED : Nat := 400
def VAULT_LOCKED : Nat := 401
def AUTH_FAILED : Nat := 402
def INVALID_CREDENTIALS : Nat := 403
def FORBIDDEN : Nat := 404
def SECRET_RESOLUTION_FAILED : Nat := 405
def SECURITY_VIOLATION : Nat := 406
def INTERNAL_ERROR : Nat := 500
def UNHANDLED_EXCEPTION : Nat := 501
def INITIALIZATION_FAILED : Nat := 502
def STATE_CORRUPTION : Nat := 503
def CRITICAL_FAILURE : Nat := 504
def DATABASE_ERROR : Nat := 505
def FILESYSTEM_ERROR : Nat := 506
def NETWORK_ERROR : Nat := 507
def OUT_OF_MEMORY : Nat := 508
def BUG_DETECTED : Nat := 509

end ExitCodes

/-- All members of the ExitCodes enum, in declaration order. -/
def exitCodesList : List Nat :=
  [0, 100, 101, 102, 103, 104, 105,
   200, 201, 202, 203, 204, 205,
   300, 301, 302, 303, 304, 305, 306, 307,
   400, 401, 402, 403, 404, 405, 406,
   500, 501, 502, 503, 504, 505, 506, 507, 508, 509]

/-- isRetryable from ExitCodes.ts: membership in the fixed
five-element list. -/
def isRetryable (code : Nat) : Bool :=
  [ExitCodes.TIMEOUT,
   ExitCodes.SERVICE_UNAVAILABLE,
   ExitCodes.NETWORK_ERROR,
   ExitCodes.DATABASE_ERROR,
   ExitCodes.RESOURCE_ERROR].contains code

/-! ## Error taxonomy (errors/ErrorTypes.ts and the error classes) -/

/-- ErrorType from ErrorTypes.ts. -/
inductive ErrorType where
  | user
  | config
  | security
  | execution
  | system
  | internal
deriving DecidableEq, BEq, Repr

/-- ErrorSeverity from ErrorTypes.ts. -/
inductive ErrorSeverity where
  | low
  | medium
  | high
  | critical
deriving DecidableEq, BEq, Repr

/-- isErrorTypeRetryable from ErrorTypes.ts: only SYSTEM and
EXECUTION are retryable by default. -/
def isErrorTypeRetryable (t : ErrorType) : Bool :=
  t == ErrorType.system || t == ErrorType.execution

/-- The static fields of one concrete error class
(component, category, severity, retryable override, exit code). -/
structure ErrorClassInfo where
  component : String
  name : String
  type : ErrorType
  severity : ErrorSeverity
  retryable : Bool := false
  exitCode : Nat
deriving DecidableEq, Repr

/-- Every exported concrete error class of the repository
(orbyt.errors.ts, vaulta.errors.ts, devforge.errors.ts,
mediaproc.errors.ts), with its declared static fields. -/
def errorRegistry : List ErrorClassInfo :=
  [⟨"orbyt", "WorkflowValidationError", .user, .high, false, 101⟩,
   ⟨"orbyt", "WorkflowCycleDetectedError", .user, .high, false, 305⟩,
   ⟨"orbyt", "WorkflowParseError", .user, .high, false, 103⟩,
   ⟨"orbyt", "WorkflowNotFoundError", .user, .medium, false, 100⟩,
   ⟨"orbyt", "StepNotFoundError", .user, .medium, false, 100⟩,
   ⟨"orbyt", "StepTimeoutError", .execution, .medium, true, 304⟩,
   ⟨"orbyt", "StepExecutionError", .execution, .high, false, 301⟩,
   ⟨"orbyt", "StepDependencyError", .execution, .high, false, 306⟩,
   ⟨"orbyt", "StepConfigurationError", .config, .medium, false, 204⟩,
   ⟨"orbyt", "AdapterNotRegisteredError", .config, .high, false, 202⟩,
   ⟨"orbyt", "AdapterExecutionError", .execution, .high, false, 302⟩,
   ⟨"orbyt", "AdapterInitializationError", .config, .critical, false, 502⟩,
   ⟨"orbyt", "AdapterNotFoundError", .config, .high, false, 202⟩,
   ⟨"orbyt", "EngineInitializationError", .internal, .critical, false, 502⟩,
   ⟨"orbyt", "EngineStateCorruptedError", .internal, .critical, false, 503⟩,
   ⟨"orbyt", "EngineExecutionError", .execution, .high, false, 300⟩,
   ⟨"orbyt", "VariableNotFoundError", .user, .medium, false, 100⟩,
   ⟨"orbyt", "VariableResolutionError", .execution, .medium, false, 301⟩,
   ⟨"orbyt", "VariableCircularReferenceError", .user, .high, false, 305⟩,
   ⟨"orbyt", "SecretNotFoundError", .config, .high, false, 201⟩,
   ⟨"orbyt", "SecretResolutionError", .security, .high, false, 405⟩,
   ⟨"orbyt", "SecretVaultNotConfiguredError", .config, .high, false, 200⟩,
   ⟨"vaulta", "VaultNotInitializedError", .config, .high, false, 200⟩,
   ⟨"vaulta", "VaultLockedError", .security, .high, false, 401⟩,
   ⟨"vaulta", "VaultAlreadyExistsError", .user, .medium, false, 100⟩,
   ⟨"vaulta", "VaultNotFoundError", .user, .medium, false, 100⟩,
   ⟨"vaulta", "VaultCorruptedError", .internal, .critical, false, 503⟩,
   ⟨"vaulta", "InvalidMasterPasswordError", .security, .high, false, 403⟩,
   ⟨"vaulta", "VaultPermissionDeniedError", .security, .high, false, 400⟩,
   ⟨"vaulta", "VaultAuthenticationError", .security, .high, false, 402⟩,
   ⟨"vaulta", "VaultSessionExpiredError", .security, .medium, false, 402⟩,
   ⟨"vaulta", "EncryptionError", .internal, .critical, false, 500⟩,
   ⟨"vaulta", "DecryptionError", .security, .critical, false, 500⟩,
   ⟨"vaulta", "InvalidEncryptionKeyError", .security, .critical, false, 403⟩,
   ⟨"vaulta", "SecretNotFoundError", .user, .medium, false, 201⟩,
   ⟨"vaulta", "SecretAlreadyExistsError", .user, .medium, false, 100⟩,
   ⟨"vaulta", "InvalidSecretPathError", .user, .medium, false, 100⟩,
   ⟨"vaulta", "SecretReadError", .execution, .medium, false, 500⟩,
   ⟨"vaulta", "SecretWriteError", .execution, .medium, false, 500⟩,
   ⟨"devforge", "TemplateNotFoundError", .user, .medium, false, 100⟩,
   ⟨"devforge", "TemplateParseError", .internal, .high, false, 500⟩,
   ⟨"devforge", "TemplateStructureError", .user, .medium, false, 101⟩,
   ⟨"devforge", "TemplateRenderError", .execution, .medium, false, 301⟩,
   ⟨"devforge", "FeatureConflictError", .user, .medium, false, 100⟩,
   ⟨"devforge", "FeatureNotFoundError", .user, .medium, false, 100⟩,
   ⟨"devforge", "FeatureIncompatibleError", .user, .medium, false, 100⟩,
   ⟨"devforge", "FeatureInstallError", .execution, .high, false, 301⟩,
   ⟨"devforge", "ProjectGenerationError", .execution, .high, false, 301⟩,
   ⟨"devforge", "ProjectAlreadyExistsError", .user, .medium, false, 100⟩,
   ⟨"devforge", "FileGenerationError", .execution, .medium, false, 506⟩,
   ⟨"devforge", "DirectoryCreationError", .execution, .medium, false, 506⟩,
   ⟨"devforge", "DependencyInstallError", .execution, .high, true, 301⟩,
   ⟨"devforge", "DevforgeConfigurationError", .config, .medium, false, 204⟩,
   ⟨"devforge", "ConfigNotFoundError", .config, .medium, false, 200⟩,
   ⟨"devforge", "ConfigParseError", .config, .medium, false, 103⟩,
   ⟨"mediaproc", "ImageFormatUnsupportedError", .user, .medium, false, 103⟩,
   ⟨"mediaproc", "ImageResizeError", .execution, .medium, false, 301⟩,
   ⟨"mediaproc", "ImageConversionError", .execution, .medium, false, 301⟩,
   ⟨"mediaproc", "ImageFileCorruptedError", .user, .high, false, 102⟩,
   ⟨"mediaproc", "ImageWatermarkError", .execution, .medium, false, 301⟩,
   ⟨"mediaproc", "VideoCodecNotFoundError", .config, .high, false, 202⟩,
   ⟨"mediaproc", "VideoTranscodeError", .execution, .medium, true, 301⟩,
   ⟨"mediaproc", "VideoFormatUnsupportedError", .user, .medium, false, 103⟩,
   ⟨"mediaproc", "VideoFileCorruptedError", .user, .high, false, 102⟩,
   ⟨"mediaproc", "AudioCodecNotFoundError", .config, .high, false, 202⟩,
   ⟨"mediaproc", "AudioConversionError", .execution, .medium, false, 301⟩,
   ⟨"mediaproc", "AudioFormatUnsupportedError", .user, .medium, false, 103⟩,
   ⟨"mediaproc", "PipelineStepError", .execution, .high, false, 301⟩,
   ⟨"mediaproc", "PipelineConfigurationError", .config, .medium, false, 204⟩,
   ⟨"mediaproc", "PipelineTimeoutError", .execution, .medium, true, 304⟩]

/-- The fixed exit-code range each category claims
(100s user, 200s config, 300s execution, 400s security, 500s internal;
no class carries the system category). -/
def claimCategoryRange (t : ErrorType) (c : Nat) : Bool :=
  match t with
  | .user => decide (100 ≤ c) && decide (c ≤ 199)
  | .config => decide (200 ≤ c) && decide (c ≤ 299)
  | .execution => decide (300 ≤ c) && decide (c ≤ 399)
  | .security => decide (400 ≤ c) && decide (c ≤ 499)
  | .internal => decide (500 ≤ c) && decide (c ≤ 599)
  | .system => false

/-- The error classes whose exit code lies outside the range of their
own category. -/
def rangeExceptions : List (String × String) :=
  [("orbyt", "WorkflowCycleDetectedError"),
   ("orbyt", "AdapterInitializationError"),
   ("orbyt", "VariableCircularReferenceError"),
   ("vaulta", "DecryptionError"),
   ("vaulta", "SecretNotFoundError"),
   ("vaulta", "SecretReadError"),
   ("vaulta", "SecretWriteError"),
   ("devforge", "FileGenerationError"),
   ("devforge", "DirectoryCreationError"),
   ("devforge", "ConfigParseError")]

/-! ## Log redaction (src/logging/LogFormat.ts) -/

/- JSON-like values, arrays and objects, mutually inductive so that
all recursion stays structural. -/
mutual
inductive JVal where
  | str (s : String)
  | num (n : Int)
  | bool (b : Bool)
  | null
  | arr (items : JArr)
  | obj (fields : JObj)
inductive JArr where
  | nil
  | cons (head : JVal) (tail : JArr)
inductive JObj where
  | nil
  | cons (key : String) (val : JVal) (tail : JObj)
end

deriving instance DecidableEq for JVal
deriving instance Repr for JVal

/-- The entries of an object, in order. -/
def JObj.entries : JObj → List (String × JVal)
  | .nil => []
  | .cons k v t => (k, v) :: t.entries

/-- The sensitive key names of redactSensitive, verbatim. -/
def sensitiveKeys : List String :=
  ["password", "secret", "token", "apiKey", "api_key", "accessToken",
   "access_token", "privateKey", "private_key", "creditCard", "ssn"]

/-- key.toLowerCase().includes(sk.toLowerCase()) for some sk of
sensitiveKeys. -/
def isSensitiveKey (k : String) : Bool :=
  sensitiveKeys.any (fun sk =>
    containsChars (lowerChars sk.toList) (lowerChars k.toList))

/- redactSensitive from LogFormat.ts: sensitive keys get the fixed
placeholder; a non-sensitive entry whose value is a non-null,
non-array object is redacted recursively; every other entry is kept
unchanged.  redactValue is the per-value branch of the loop body. -/
mutual
def redactSensitive : JObj → JObj
  | .nil => .nil
  | .cons k v t =>
    if isSensitiveKey k then .cons k (.str "[REDACTED]") (redactSensitive t)
    else .cons k (redactValue v) (redactSensitive t)
def redactValue : JVal → JVal
  | .obj fields => .obj (redactSensitive fields)
  | .str s => .str s
  | .num n => .num n
  | .bool b => .bool b
  | .null => .null
  | .arr items => .arr items
end

/-- Modelled from the spec: the eight sensitive key names the spec
lists for the log emitter (password, secret, token, apiKey,
accessToken, privateKey, creditCard, ssn), matched case-insensitively
against key substrings.  Used to compare the spec's redaction rule
with the implemented one. -/
def specSensitiveKey (k : String) : Bool :=
  ["password", "secret", "token", "apiKey", "accessToken",
   "privateKey", "creditCard", "ssn"].any (fun sk =>
    containsChars (lowerChars sk.toList) (lowerChars k.toList))

/-! ## Helper lemmas: the set model and the refinement checks -/

/-- A one-issue conditional chunk is empty exactly when its check holds. -/
@[simp] theorem ifIssue_eq_nil (b : Bool) (x : Issue) :
    ((if b then ([] : List Issue) else [x]) = []) ↔ b = true := by
  cases b <;> simp

theorem setInsert_length (l : List String) (x : String) :
    (setInsert l x).length = if x ∈ l then l.length else l.length + 1 := by
  by_cases h : x ∈ l <;> simp [setInsert, h]

theorem mem_setInsert (y x : String) (l : List String) :
    y ∈ setInsert l x ↔ y ∈ l ∨ y = x := by
  unfold setInsert
  by_cases h : x ∈ l
  · rw [if_pos (by simpa using h)]
    constructor
    · exact Or.inl
    · rintro (hy | rfl)
      · exact hy
      · exact h
  · rw [if_neg (by simpa using h)]
    simp

theorem setFold_length_le (xs : List String) :
    ∀ acc : List String, (xs.foldl setInsert acc).length ≤ acc.length + xs.length := by
  induction xs with
  | nil => intro acc; simp
  | cons x rest ih =>
    intro acc
    rw [List.foldl_cons]
    have h1 := ih (setInsert acc x)
    have h2 := setInsert_length acc x
    by_cases hx : x ∈ acc <;> simp [hx] at h2 <;> simp [List.length_cons] <;> omega

theorem setFold_length_eq_iff (xs : List String) :
    ∀ acc : List String,
      (xs.foldl setInsert acc).length = acc.length + xs.length ↔
        (xs.Nodup ∧ ∀ x ∈ xs, x ∉ acc) := by
  induction xs with
  | nil => intro acc; simp
  | cons x rest ih =>
    intro acc
    rw [List.foldl_cons]
    by_cases hx : x ∈ acc
    · have h1 : setInsert acc x = acc := by simp [setInsert, hx]
      rw [h1]
      constructor
      · intro h
        exfalso
        have := setFold_length_le rest acc
        simp [List.length_cons] at h
        omega
      · rintro ⟨-, hall⟩
        exact absurd hx (hall x (by simp))
    · have h1 : setInsert acc x = acc ++ [x] := by simp [setInsert, hx]
      have hlen : acc.length + (x :: rest).length = (acc ++ [x]).length + rest.length := by
        simp [List.length_append]
        omega
      rw [h1, hlen, ih (acc ++ [x])]
      constructor
      · rintro ⟨hnd, hall⟩
        have hxs : x ∉ rest := fun hmem => (hall x hmem) (by simp)
        refine ⟨List.nodup_cons.mpr ⟨hxs, hnd⟩, ?_⟩
        intro y hy
        rcases List.mem_cons.mp hy with rfl | hmem
        · exact hx
        · exact fun hyacc => hall y hmem (List.mem_append_left _ hyacc)
      · rintro ⟨hnd, hall⟩
        obtain ⟨hxs, hnd2⟩ := List.nodup_cons.mp hnd
        refine ⟨hnd2, ?_⟩
        intro y hy hymem
        rcases List.mem_append.mp hymem with h2 | h2
        · exact hall y (List.mem_cons_of_mem _ hy) h2
        · have hyx : y = x := by simpa using h2
          subst hyx
          exact hxs hy

theorem mem_setFold (y : String) (xs : List String) :
    ∀ acc : List String, y ∈ xs.foldl setInsert acc ↔ y ∈ acc ∨ y ∈ xs := by
  induction xs with
  | nil => intro acc; simp
  | cons x rest ih =>
    intro acc
    rw [List.foldl_cons, ih (setInsert acc x), mem_setInsert]
    simp [List.mem_cons]
    tauto

theorem mem_setOfList (y : String) (xs : List String) :
    y ∈ setOfList xs ↔ y ∈ xs := by
  simpa [setOfList] using mem_setFold y xs []

/-- The duplicate-id refinement accepts exactly the workflows whose step
ids are pairwise distinct. -/
theorem uniqueIdCheck_iff (w : Workflow) :
    uniqueIdCheck w = true ↔ (stepIds w).Nodup := by
  have h := setFold_length_eq_iff (stepIds w) []
  simp only [List.length_nil, Nat.zero_add, List.not_mem_nil, not_false_iff,
    implies_true, and_true] at h
  simp only [uniqueIdCheck, setOfList, beq_iff_eq]
  rw [eq_comm]
  exact h

/-- The dependency-existence refinement accepts exactly the workflows in
which every needs entry is a step id. -/
theorem needsExistCheck_iff (w : Workflow) :
    needsExistCheck w = true ↔
      ∀ s ∈ w.workflow.steps, ∀ d ∈ s.needs.getD [], d ∈ stepIds w := by
  simp [needsExistCheck, List.all_eq_true, mem_setOfList]

theorem cronOne_iff (t : Trigger) :
    ((match t with
      | .cron s => !(s == "")
      | _ => true) = true) ↔ ∀ s, t = Trigger.cron s → s ≠ "" := by
  cases t <;> simp

/-- The cron refinement accepts exactly the workflows in which no cron
trigger has an empty schedule. -/
theorem cronTriggerCheck_iff (w : Workflow) :
    cronTriggerCheck w = true ↔
      ∀ t ∈ w.triggers.getD [], ∀ s, t = Trigger.cron s → s ≠ "" := by
  cases htr : w.triggers with
  | none => simp [cronTriggerCheck, htr]
  | some ts => simp [cronTriggerCheck, htr, List.all_eq_true, cronOne_iff]

theorem refinementIssues_eq_nil (w : Workflow) :
    refinementIssues w = [] ↔
      uniqueIdCheck w = true ∧ needsExistCheck w = true ∧ cronTriggerCheck w = true := by
  cases h1 : uniqueIdCheck w <;> cases h2 : needsExistCheck w <;>
    cases h3 : cronTriggerCheck w <;> simp [refinementIssues, h1, h2, h3]

theorem parse_ok_iff (r : RawWorkflow) (w : Workflow) :
    parseOrbytWorkflow r = .ok w ↔ rawWorkflowIssues r = [] ∧ buildWorkflow r = w := by
  unfold parseOrbytWorkflow
  cases h : rawWorkflowIssues r <;> simp [h]

theorem validated_ok_iff (r : RawWorkflow) (w : Workflow) :
    validatedOrbytWorkflow r = .ok w ↔
      parseOrbytWorkflow r = .ok w ∧ refinementIssues w = [] := by
  unfold validatedOrbytWorkflow
  cases hp : parseOrbytWorkflow r with
  | error i => simp
  | ok w0 =>
    cases hrf : refinementIssues w0 with
    | nil =>
      simp only [hrf, Except.ok.injEq]
      constructor
      · rintro rfl
        exact ⟨rfl, hrf⟩
      · rintro ⟨rfl, -⟩
        rfl
    | cons a l =>
      simp only [hrf, Except.ok.injEq]
      constructor
      · intro h
        exact absurd h (by simp)
      · rintro ⟨rfl, h2⟩
        rw [hrf] at h2
        exact absurd h2 (by simp)

theorem validated_error_of_issues (r : RawWorkflow) (h : rawWorkflowIssues r ≠ []) :
    validatedOrbytWorkflow r = .error (rawWorkflowIssues r) := by
  unfold validatedOrbytWorkflow parseOrbytWorkflow
  cases hr : rawWorkflowIssues r with
  | nil => exact absurd hr h
  | cons a l => simp

/-! ## Structural checks and the serialization round trip -/

theorem rawStepIssues_nil_iff (i : Nat) (s : RawStep) :
    rawStepIssues i s = [] ↔ stepOK (buildStep s) = true := by
  rcases s with ⟨sid, su, sn, sc, st⟩
  cases st <;>
    simp [rawStepIssues, buildStep, stepOK, List.append_eq_nil, Bool.and_eq_true]
  tauto

theorem buildStep_toRawStep (s : Step) : buildStep (toRawStep s) = s := by
  rcases s with ⟨sid, su, sn, sc, st⟩
  simp [buildStep, toRawStep]

theorem stepsIssuesFrom_nil_iff (ss : List RawStep) :
    ∀ i : Nat, (stepsIssuesFrom i ss = [] ↔ ∀ s ∈ ss, stepOK (buildStep s) = true) := by
  induction ss with
  | nil => intro i; simp [stepsIssuesFrom]
  | cons s rest ih =>
    intro i
    simp [stepsIssuesFrom, List.append_eq_nil, rawStepIssues_nil_iff, ih (i + 1)]

theorem rawTriggerIssues_toRawTrigger (i : Nat) (t : Trigger) :
    rawTriggerIssues i (toRawTrigger t) = [] := by
  cases t <;> rfl

theorem buildTrigger_toRawTrigger (t : Trigger) : buildTrigger (toRawTrigger t) = t := by
  cases t <;> rfl

theorem triggersIssuesFrom_toRaw (ts : List Trigger) :
    ∀ i : Nat, triggersIssuesFrom i (ts.map toRawTrigger) = [] := by
  induction ts with
  | nil => intro i; rfl
  | cons t rest ih =>
    intro i
    simp [triggersIssuesFrom, rawTriggerIssues_toRawTrigger, ih (i + 1)]

theorem mapBuildTrigger_toRaw (ts : List Trigger) :
    (ts.map toRawTrigger).map buildTrigger = ts := by
  induction ts with
  | nil => rfl
  | cons t rest ih => simp [buildTrigger_toRawTrigger, ih]

theorem mapBuildStep_toRaw (ss : List Step) :
    (ss.map toRawStep).map buildStep = ss := by
  induction ss with
  | nil => rfl
  | cons s rest ih => simp [buildStep_toRawStep, ih]

theorem rawPoliciesIssues_nil (p : RawPolicies) (h : rawPoliciesIssues p = []) :
    policiesOK (buildPolicies p) = true := by
  rcases p with ⟨pf, pc, ps⟩
  cases pf <;> cases pc <;> cases ps <;>
    simp_all [rawPoliciesIssues, List.append_eq_nil, policiesOK, buildPolicies]
  all_goals decide

/-- A one-issue conditional chunk over a decidable proposition. -/
@[simp] theorem ifIssueProp_eq_nil (p : Prop) [Decidable p] (x : Issue) :
    ((if p then ([] : List Issue) else [x]) = []) ↔ p := by
  by_cases h : p <;> simp [h]

theorem buildPolicies_toRawPolicies (p : Policies) :
    buildPolicies (toRawPolicies p) = p := by
  rcases p with ⟨pf, pc, ps⟩
  simp [buildPolicies, toRawPolicies]

theorem rawPoliciesIssues_toRaw (p : Policies) (h : policiesOK p = true) :
    rawPoliciesIssues (toRawPolicies p) = [] := by
  rcases p with ⟨pf, pc, ps⟩
  simp only [policiesOK, Bool.and_eq_true] at h
  obtain ⟨⟨h1, h2⟩, h3⟩ := h
  have hc : (1 : Int) ≤ pc := of_decide_eq_true h2
  have h1m : pf ∈ failureValues := by simpa using h1
  have h3m : ps ∈ sandboxValues := by simpa using h3
  simp [rawPoliciesIssues, toRawPolicies, h1m, h3m, hc]

theorem kindIssues_nil (k : Option String) (h : kindIssues k = []) :
    kindValues.contains (k.getD "workflow") = true := by
  cases k with
  | none => decide
  | some k0 => simpa [kindIssues] using h

theorem policiesIssuesOpt_nil (p : Option RawPolicies) (h : policiesIssuesOpt p = []) :
    policiesOKOpt (p.map buildPolicies) = true := by
  cases p with
  | none => rfl
  | some p0 =>
    exact rawPoliciesIssues_nil p0 (by simpa [policiesIssuesOpt] using h)

theorem rawWorkflowIssues_nil_ok (r : RawWorkflow) (h : rawWorkflowIssues r = []) :
    workflowOK (buildWorkflow r) = true := by
  simp only [rawWorkflowIssues, List.append_eq_nil] at h
  obtain ⟨⟨⟨⟨⟨hv, hk⟩, htr⟩, hp⟩, hlen⟩, hsteps⟩ := h
  rw [stepsIssuesFrom_nil_iff] at hsteps
  simp only [workflowOK, buildWorkflow, Bool.and_eq_true]
  refine ⟨⟨⟨⟨?_, ?_⟩, ?_⟩, ?_⟩, ?_⟩
  · simpa [versionIssues] using hv
  · exact kindIssues_nil r.kind hk
  · exact policiesIssuesOpt_nil r.policies hp
  · simp only [List.length_map, decide_eq_true_eq]
    have h0 : ¬ r.workflow.steps = [] := by simpa [stepsMinIssues] using hlen
    exact List.length_pos.mpr h0
  · rw [List.all_eq_true]
    intro x hx
    rw [List.mem_map] at hx
    obtain ⟨s, hs, rfl⟩ := hx
    exact hsteps s hs

theorem toRaw_no_issues (w : Workflow) (h : workflowOK w = true) :
    rawWorkflowIssues (toRawWorkflow w) = [] := by
  simp only [workflowOK, Bool.and_eq_true] at h
  obtain ⟨⟨⟨⟨hv, hk⟩, hp⟩, hlen⟩, hsteps⟩ := h
  simp only [rawWorkflowIssues, toRawWorkflow, List.append_eq_nil]
  refine ⟨⟨⟨⟨⟨?_, ?_⟩, ?_⟩, ?_⟩, ?_⟩, ?_⟩
  · simp [versionIssues, hv]
  · have hkm : w.kind ∈ kindValues := by simpa using hk
    simp [kindIssues, hkm]
  · cases htr : w.triggers with
    | none => rfl
    | some ts => simpa [triggersIssuesOpt] using triggersIssuesFrom_toRaw ts 0
  · cases hpo : w.policies with
    | none => rfl
    | some p =>
      have : policiesOK p = true := by
        have := hp
        rw [hpo] at this
        simpa [policiesOKOpt] using this
      simpa [policiesIssuesOpt] using rawPoliciesIssues_toRaw p this
  · simp only [stepsMinIssues, List.length_map, ifIssueProp_eq_nil]
    exact of_decide_eq_true hlen
  · rw [stepsIssuesFrom_nil_iff]
    intro s hs
    rw [List.mem_map] at hs
    obtain ⟨t, ht, rfl⟩ := hs
    rw [buildStep_toRawStep]
    exact (List.all_eq_true.mp hsteps) t ht

theorem mapBuildStep_comp (ss : List Step) : ss.map (buildStep ∘ toRawStep) = ss := by
  induction ss with
  | nil => rfl
  | cons s rest ih => simp [Function.comp, buildStep_toRawStep, ih]

theorem mapBuildTrigger_comp (ts : List Trigger) : ts.map (buildTrigger ∘ toRawTrigger) = ts := by
  induction ts with
  | nil => rfl
  | cons t rest ih => simp [Function.comp, buildTrigger_toRawTrigger, ih]

theorem buildWorkflow_toRaw (w : Workflow) : buildWorkflow (toRawWorkflow w) = w := by
  rcases w with ⟨wv, wk, wtr, wp, ⟨wsteps⟩⟩
  cases wtr <;> cases wp <;>
    simp [buildWorkflow, toRawWorkflow, mapBuildStep_toRaw, mapBuildTrigger_toRaw,
      mapBuildStep_comp, mapBuildTrigger_comp, buildPolicies_toRawPolicies]

/-! ## Concrete inputs used as witnesses and counterexamples -/

/-- Scenario 1 of the spec: build and deploy, deploy needs build. -/
def scenario1Raw : RawWorkflow :=
  { version := "1.0", kind := some "workflow",
    workflow := ⟨[{ id := "build", uses := "cli.exec" },
                  { id := "deploy", uses := "cli.exec", needs := some ["build"] }]⟩ }

/-- Scenario 2 of the spec: deploy needs a missing step. -/
def scenario2Raw : RawWorkflow :=
  { version := "1.0", kind := some "workflow",
    workflow := ⟨[{ id := "build", uses := "cli.exec" },
                  { id := "deploy", uses := "cli.exec", needs := some ["missingStep"] }]⟩ }

/-- A three-step dependency cycle: A needs B, B needs C, C needs A. -/
def cyclicRaw : RawWorkflow :=
  { version := "1.0",
    workflow := ⟨[{ id := "A", uses := "cli.exec", needs := some ["B"] },
                  { id := "B", uses := "cli.exec", needs := some ["C"] },
                  { id := "C", uses := "cli.exec", needs := some ["A"] }]⟩ }

/-- Two different duplicated step ids in one definition. -/
def doubleDupRaw : RawWorkflow :=
  { version := "1.0",
    workflow := ⟨[{ id := "a", uses := "x.y" }, { id := "a", uses := "x.y" },
                  { id := "b", uses := "x.y" }, { id := "b", uses := "x.y" }]⟩ }

/-- One definition violating all three refinement rules at once:
a duplicated id, an unresolved needs entry and an empty cron schedule. -/
def allBadRaw : RawWorkflow :=
  { version := "1.0",
    triggers := some [{ type := "cron", schedule := some "" }],
    workflow := ⟨[{ id := "a", uses := "x.y", needs := some ["zz"] },
                  { id := "a", uses := "x.y" }]⟩ }

/-- A cron trigger with the schedule field missing entirely. -/
def cronMissingRaw : RawWorkflow :=
  { version := "1.0", triggers := some [{ type := "cron" }],
    workflow := ⟨[{ id := "build", uses := "cli.exec" }]⟩ }

/-- A cron trigger with an empty schedule string. -/
def cronEmptyRaw : RawWorkflow :=
  { version := "1.0", triggers := some [{ type := "cron", schedule := some "" }],
    workflow := ⟨[{ id := "build", uses := "cli.exec" }]⟩ }

/-! ## Claim theorems -/

/-- C1: the claim says every definition accepted by the full validation
pipeline has an acyclic needs graph and that the three-step cycle
A needs B, B needs C, C needs A is rejected with a cycle finding.  The
pipeline has no acyclicity check: the cyclic definition is accepted
with zero errors, while its dependency graph contains the edges
A to B, B to C and C to A, a cycle.  The repository's own error surface
(WorkflowCycleDetectedError, exit code CIRCULAR_DEPENDENCY, the
checkCircularDependencies contract and the documented
ORBYT-WF-003 failure) promises this rejection, so the missing check
contradicts the code's own documentation. -/
theorem c1_cycle_accepted :
    validatedOrbytWorkflow cyclicRaw = .ok (buildWorkflow cyclicRaw)
    ∧ stepEdge (buildWorkflow cyclicRaw) "A" "B" = true
    ∧ stepEdge (buildWorkflow cyclicRaw) "B" "C" = true
    ∧ stepEdge (buildWorkflow cyclicRaw) "C" "A" = true :=
  ⟨rfl, rfl, rfl, rfl⟩

/-- C6: a definition whose step ids are pairwise distinct passes the
uniqueness refinement, and the report of the refinement layer contains
no duplicate-id error. -/
theorem c6_unique_ids_no_error (w : Workflow) (h : (stepIds w).Nodup) :
    uniqueIdCheck w = true ∧ duplicateIdIssue ∉ refinementIssues w := by
  have hc := (uniqueIdCheck_iff w).mpr h
  refine ⟨hc, ?_⟩
  cases h2 : needsExistCheck w <;> cases h3 : cronTriggerCheck w <;>
    simp [refinementIssues, hc, h2, h3, duplicateIdIssue, depExistIssue, cronScheduleIssue]

/-- Witness for C6 at scenario 1. -/
theorem c6_witness :
    uniqueIdCheck (buildWorkflow scenario1Raw) = true
    ∧ duplicateIdIssue ∉ refinementIssues (buildWorkflow scenario1Raw) :=
  c6_unique_ids_no_error (buildWorkflow scenario1Raw) (by decide)

/-- C7: validation is idempotent.  If a raw input is accepted with
defaulted result w, then serializing w and running the full pipeline
again accepts with zero errors and returns w itself: the structural
checks hold of the already-defaulted fields, defaults fill nothing new,
and the refinements are deterministic on the same tree. -/
theorem c7_idempotent (r : RawWorkflow) (w : Workflow)
    (h : validatedOrbytWorkflow r = .ok w) :
    validatedOrbytWorkflow (toRawWorkflow w) = .ok w := by
  rw [validated_ok_iff] at h
  obtain ⟨hp, hrf⟩ := h
  rw [parse_ok_iff] at hp
  obtain ⟨hri, hbw⟩ := hp
  have hok : workflowOK w = true := hbw ▸ rawWorkflowIssues_nil_ok r hri
  rw [validated_ok_iff]
  refine ⟨?_, hrf⟩
  rw [parse_ok_iff]
  exact ⟨toRaw_no_issues w hok, buildWorkflow_toRaw w⟩

/-- Witness for C7 at scenario 1. -/
theorem c7_witness :
    validatedOrbytWorkflow (toRawWorkflow (buildWorkflow scenario1Raw))
      = .ok (buildWorkflow scenario1Raw) :=
  c7_idempotent scenario1Raw (buildWorkflow scenario1Raw) (by rfl)

/-- C3 counterexample: in doubleDupRaw the ids a and b are each
duplicated, so the claim (one uniqueness error per duplicated id)
predicts two uniqueness errors in the report; the validation call
produces exactly one collapsed duplicate-id error. -/
theorem c3_counterexample :
    (stepIds (buildWorkflow doubleDupRaw)).count "a" = 2
    ∧ (stepIds (buildWorkflow doubleDupRaw)).count "b" = 2
    ∧ validatedOrbytWorkflow doubleDupRaw = .error [duplicateIdIssue] :=
  ⟨by decide, by decide, rfl⟩

/-- C3 amended: one call runs all three refinement rules and reports
the violated ones together (collect-all across rules), but each rule
contributes at most one error no matter how many violations of that
rule exist: a report never carries one error per duplicated id or per
unresolved needs entry. -/
theorem c3_amended (w : Workflow)
    (h1 : ¬ (stepIds w).Nodup)
    (h2 : ∃ s ∈ w.workflow.steps, ∃ d ∈ s.needs.getD [], d ∉ stepIds w)
    (h3 : ∃ t ∈ w.triggers.getD [], t = Trigger.cron "") :
    refinementIssues w = [duplicateIdIssue, depExistIssue, cronScheduleIssue] := by
  have hb1 : uniqueIdCheck w = false := by
    cases hb : uniqueIdCheck w
    · rfl
    · exact absurd ((uniqueIdCheck_iff w).mp hb) h1
  have hb2 : needsExistCheck w = false := by
    cases hb : needsExistCheck w
    · rfl
    · obtain ⟨s, hs, d, hd, hnot⟩ := h2
      exact absurd ((needsExistCheck_iff w).mp hb s hs d hd) hnot
  have hb3 : cronTriggerCheck w = false := by
    cases hb : cronTriggerCheck w
    · rfl
    · obtain ⟨t, ht, rfl⟩ := h3
      exact absurd rfl ((cronTriggerCheck_iff w).mp hb _ ht "" rfl)
  simp [refinementIssues, hb1, hb2, hb3]

/-- Witness for C3 at a definition violating all three rules. -/
theorem c3_witness :
    refinementIssues (buildWorkflow allBadRaw)
      = [duplicateIdIssue, depExistIssue, cronScheduleIssue] :=
  c3_amended (buildWorkflow allBadRaw) (by decide) (by decide) (by decide)

/-- C4 counterexample: for scenario 2 (deploy needs missingStep) the
pipeline rejects with exactly one error at path workflow.steps, but the
message is the fixed refinement string, which does not contain the
missing id missingStep, against the claim that the message references
the missing id. -/
theorem c4_counterexample :
    validatedOrbytWorkflow scenario2Raw = .error [depExistIssue]
    ∧ containsChars "missingStep".toList depExistIssue.message.toList = false :=
  ⟨rfl, by decide⟩

/-- C4 amended: a definition that is otherwise valid but has some
unresolved needs entry is rejected with exactly one error at path
workflow.steps carrying the fixed message of the dependency refinement;
the message does not name the missing id. -/
theorem c4_amended (r : RawWorkflow) (w : Workflow)
    (hp : parseOrbytWorkflow r = .ok w)
    (hnd : (stepIds w).Nodup)
    (hcron : cronTriggerCheck w = true)
    (hmiss : ∃ s ∈ w.workflow.steps, ∃ d ∈ s.needs.getD [], d ∉ stepIds w) :
    validatedOrbytWorkflow r = .error [depExistIssue] := by
  have h1 := (uniqueIdCheck_iff w).mpr hnd
  have hb2 : needsExistCheck w = false := by
    cases hb : needsExistCheck w
    · rfl
    · obtain ⟨s, hs, d, hd, hnot⟩ := hmiss
      exact absurd ((needsExistCheck_iff w).mp hb s hs d hd) hnot
  have hrf : refinementIssues w = [depExistIssue] := by
    simp [refinementIssues, h1, hb2, hcron]
  have hstep : validatedOrbytWorkflow r
      = match refinementIssues w with
        | [] => Except.ok w
        | issues => Except.error issues := by
    unfold validatedOrbytWorkflow
    rw [hp]
  rw [hstep, hrf]

/-- Witness for C4 at scenario 2. -/
theorem c4_witness :
    validatedOrbytWorkflow scenario2Raw = .error [depExistIssue] :=
  c4_amended scenario2Raw (buildWorkflow scenario2Raw) (by rfl) (by decide) (by rfl)
    (by decide)

/-- A cron trigger with a missing schedule contributes the structural
Required issue at its own schedule path. -/
theorem triggersIssuesFrom_required (ts : List RawTrigger) (t : RawTrigger)
    (htype : t.type = "cron") (hsch : t.schedule = none) :
    ∀ i : Nat, t ∈ ts →
      ∃ j, (⟨triggerPath j "schedule", "Required"⟩ : Issue) ∈ triggersIssuesFrom i ts := by
  induction ts with
  | nil =>
    intro i hmem
    simp at hmem
  | cons u rest ih =>
    intro i hmem
    rcases List.mem_cons.mp hmem with rfl | hmem2
    · refine ⟨i, ?_⟩
      have hone : rawTriggerIssues i t = [⟨triggerPath i "schedule", "Required"⟩] := by
        simp [rawTriggerIssues, htype, hsch]
      simp [triggersIssuesFrom, hone]
    · obtain ⟨j, hj⟩ := ih (i + 1) hmem2
      refine ⟨j, ?_⟩
      simp only [triggersIssuesFrom]
      exact List.mem_append_right _ hj

/-- C5 counterexample: for a cron trigger with the schedule field
missing entirely, the pipeline rejects with a single structural
Required error at path triggers.0.schedule, not with the completeness
error at path triggers that the claim asserts for this case. -/
theorem c5_counterexample :
    validatedOrbytWorkflow cronMissingRaw
      = .error [⟨[.key "triggers", .idx 0, .key "schedule"], "Required"⟩]
    ∧ (⟨[.key "triggers", .idx 0, .key "schedule"], "Required"⟩ : Issue).path
        ≠ cronScheduleIssue.path :=
  ⟨rfl, by decide⟩

/-- C5 amended: a cron trigger with a schedule that is present but
empty yields exactly one completeness error at path triggers (for an
otherwise valid definition); a cron trigger whose schedule field is
missing entirely never reaches the refinements: the structural layer
rejects it with a Required error located at the schedule field of that
trigger. -/
theorem c5_amended :
    (∀ r w, parseOrbytWorkflow r = .ok w → (stepIds w).Nodup →
      needsExistCheck w = true →
      (∃ t ∈ w.triggers.getD [], t = Trigger.cron "") →
      validatedOrbytWorkflow r = .error [cronScheduleIssue])
    ∧ (∀ r ts t, r.triggers = some ts → t ∈ ts → t.type = "cron" →
      t.schedule = none →
      (∃ j, (⟨triggerPath j "schedule", "Required"⟩ : Issue) ∈ rawWorkflowIssues r)
      ∧ validatedOrbytWorkflow r = .error (rawWorkflowIssues r)) := by
  constructor
  · intro r w hp hnd hex hcron
    have h1 := (uniqueIdCheck_iff w).mpr hnd
    have hb3 : cronTriggerCheck w = false := by
      cases hb : cronTriggerCheck w
      · rfl
      · obtain ⟨t, ht, rfl⟩ := hcron
        exact absurd rfl ((cronTriggerCheck_iff w).mp hb _ ht "" rfl)
    have hrf : refinementIssues w = [cronScheduleIssue] := by
      simp [refinementIssues, h1, hex, hb3]
    have hstep : validatedOrbytWorkflow r
        = match refinementIssues w with
          | [] => Except.ok w
          | issues => Except.error issues := by
      unfold validatedOrbytWorkflow
      rw [hp]
    rw [hstep, hrf]
  · intro r ts t htr hmem htype hsch
    obtain ⟨j, hj⟩ := triggersIssuesFrom_required ts t htype hsch 0 hmem
    have hchunk : triggersIssuesOpt r.triggers = triggersIssuesFrom 0 ts := by
      rw [htr]
      rfl
    have hjmem : (⟨triggerPath j "schedule", "Required"⟩ : Issue) ∈ rawWorkflowIssues r := by
      simp only [rawWorkflowIssues, hchunk, List.mem_append]
      exact Or.inl (Or.inl (Or.inl (Or.inr hj)))
    exact ⟨⟨j, hjmem⟩, validated_error_of_issues r (List.ne_nil_of_mem hjmem)⟩

/-- Witness for C5: empty schedule at cronEmptyRaw, missing schedule at
cronMissingRaw. -/
theorem c5_witness :
    validatedOrbytWorkflow cronEmptyRaw = .error [cronScheduleIssue]
    ∧ ((∃ j, (⟨triggerPath j "schedule", "Required"⟩ : Issue) ∈ rawWorkflowIssues cronMissingRaw)
       ∧ validatedOrbytWorkflow cronMissingRaw = .error (rawWorkflowIssues cronMissingRaw)) :=
  ⟨c5_amended.1 cronEmptyRaw (buildWorkflow cronEmptyRaw) (by rfl) (by decide) (by rfl)
      (by decide),
   c5_amended.2 cronMissingRaw [{ type := "cron" }] { type := "cron" } rfl (by decide) rfl rfl⟩

/-- C2 counterexample: WorkflowCycleDetectedError carries the user
category but the exit code CIRCULAR_DEPENDENCY = 305, which lies in the
execution range, not in the user range 100 to 199; the universally
quantified range claim fails on this class (and on nine others). -/
theorem c2_counterexample :
    (⟨"orbyt", "WorkflowCycleDetectedError", .user, .high, false, 305⟩ : ErrorClassInfo)
      ∈ errorRegistry
    ∧ claimCategoryRange ErrorType.user 305 = false :=
  ⟨by decide, rfl⟩

/-- C2 amended: every exported error class except the ten listed in
rangeExceptions carries an exit code inside the fixed range of its own
category (100s user, 200s config, 300s execution, 400s security,
500s internal). -/
theorem c2_range_amended (e : ErrorClassInfo)
    (hmem : e ∈ errorRegistry)
    (hexc : (e.component, e.name) ∉ rangeExceptions) :
    claimCategoryRange e.type e.exitCode = true := by
  have hall : ∀ x ∈ errorRegistry,
      (x.component, x.name) ∉ rangeExceptions →
        claimCategoryRange x.type x.exitCode = true := by decide
  exact hall e hmem hexc

/-- Witness for C2 at WorkflowValidationError (user, exit code 101). -/
theorem c2_witness : claimCategoryRange ErrorType.user 101 = true :=
  c2_range_amended ⟨"orbyt", "WorkflowValidationError", .user, .high, false, 101⟩
    (by decide) (by decide)

/-- Every entry of a redacted object: a sensitive key is bound to the
placeholder, a non-sensitive key keeps its value up to the per-value
branch redactValue. -/
theorem redact_entries_mem : ∀ (o : JObj) (k : String) (v : JVal),
    (k, v) ∈ o.entries →
      (isSensitiveKey k = true →
        (k, JVal.str "[REDACTED]") ∈ (redactSensitive o).entries)
      ∧ (isSensitiveKey k = false →
        (k, redactValue v) ∈ (redactSensitive o).entries)
  | .nil, k, v, h => absurd h (by simp [JObj.entries])
  | .cons k2 v2 t, k, v, h => by
    have hrest := fun hmem => redact_entries_mem t k v hmem
    simp only [JObj.entries, List.mem_cons, Prod.mk.injEq] at h
    rcases h with ⟨hk, hv⟩ | hmem
    · subst hk
      subst hv
      cases hs : isSensitiveKey k with
      | true =>
        refine ⟨fun _ => ?_, fun hns => nomatch hns⟩
        simp [redactSensitive, hs, JObj.entries]
      | false =>
        refine ⟨fun htrue => (nomatch htrue), fun _ => ?_⟩
        simp [redactSensitive, hs, JObj.entries]
    · obtain ⟨ih1, ih2⟩ := hrest hmem
      cases hs2 : isSensitiveKey k2 with
      | true =>
        constructor
        · intro hk
          simp only [redactSensitive, hs2, if_pos, JObj.entries, List.mem_cons]
          exact Or.inr (ih1 hk)
        · intro hk
          simp only [redactSensitive, hs2, if_pos, JObj.entries, List.mem_cons]
          exact Or.inr (ih2 hk)
      | false =>
        constructor
        · intro hk
          simp only [redactSensitive, hs2, if_neg, Bool.false_eq_true,
            not_false_iff, JObj.entries, List.mem_cons]
          exact Or.inr (ih1 hk)
        · intro hk
          simp only [redactSensitive, hs2, if_neg, Bool.false_eq_true,
            not_false_iff, JObj.entries, List.mem_cons]
          exact Or.inr (ih2 hk)

/-- C8 counterexample: the key api_key contains none of the eight
names the claim lists (its lowercase form has an underscore that
apiKey's lowercase form apikey lacks), so by the claim this non-map
entry is returned unchanged; the implementation redacts it, because its
sensitive list additionally contains the snake_case names api_key,
access_token and private_key. -/
theorem c8_counterexample :
    redactSensitive (.cons "api_key" (.str "x") .nil)
      = .cons "api_key" (.str "[REDACTED]") .nil
    ∧ specSensitiveKey "api_key" = false :=
  ⟨rfl, rfl⟩

/-- C8 amended: with sensitivity meaning the implementation's eleven
names (the spec's eight plus api_key, access_token, private_key,
matched case-insensitively as substrings): a sensitive key is bound to
the placeholder (in particular every key matching one of the spec's
eight names, since they are among the eleven); a non-sensitive entry
with an object value is redacted recursively; a non-sensitive entry
with any other value is returned unchanged. -/
theorem c8_amended (o : JObj) (k : String) (v : JVal)
    (hmem : (k, v) ∈ o.entries) :
    (specSensitiveKey k = true →
      (k, JVal.str "[REDACTED]") ∈ (redactSensitive o).entries)
    ∧ (isSensitiveKey k = true →
      (k, JVal.str "[REDACTED]") ∈ (redactSensitive o).entries)
    ∧ (isSensitiveKey k = false → (∀ fs, v ≠ JVal.obj fs) →
      (k, v) ∈ (redactSensitive o).entries)
    ∧ (∀ fs, isSensitiveKey k = false → v = JVal.obj fs →
      (k, JVal.obj (redactSensitive fs)) ∈ (redactSensitive o).entries) := by
  obtain ⟨h1, h2⟩ := redact_entries_mem o k v hmem
  refine ⟨?_, h1, ?_, ?_⟩
  · intro hspec
    refine h1 ?_
    simp only [specSensitiveKey, List.any_eq_true] at hspec
    obtain ⟨sk, hsk, hc⟩ := hspec
    have hsub : ∀ x ∈ ["password", "secret", "token", "apiKey", "accessToken",
        "privateKey", "creditCard", "ssn"], x ∈ sensitiveKeys := by decide
    simp only [isSensitiveKey, List.any_eq_true]
    exact ⟨sk, hsub sk hsk, hc⟩
  · intro hns hnobj
    have := h2 hns
    cases v with
    | obj fs => exact absurd rfl (hnobj fs)
    | str s => exact this
    | num n => exact this
    | bool b => exact this
    | null => exact this
    | arr a => exact this
  · intro fs hns hv
    subst hv
    exact h2 hns

/-- Witness for C8: a sensitive key redacted at top level. -/
theorem c8_witness :
    ("password", JVal.str "[REDACTED]")
      ∈ (redactSensitive (.cons "password" (.str "x") .nil)).entries :=
  (c8_amended (.cons "password" (.str "x") .nil) "password" (.str "x")
    (by simp [JObj.entries])).1 rfl

/-- C9: redactSensitive does not recurse into arrays: an entry whose
key is not sensitive and whose value is an array is returned unchanged,
so sensitive keys inside objects that are array elements keep their
original values. -/
theorem c9_arrays_unchanged (o : JObj) (k : String) (a : JArr)
    (hmem : (k, JVal.arr a) ∈ o.entries) (hns : isSensitiveKey k = false) :
    (k, JVal.arr a) ∈ (redactSensitive o).entries :=
  (redact_entries_mem o k (JVal.arr a) hmem).2 hns

/-- The array value used by the C9 witness: one element, an object
with a password entry. -/
def c9Array : JArr := .cons (.obj (.cons "password" (.str "hunter2") .nil)) .nil

/-- Witness for C9: the array, password inside it included, survives
redaction unchanged. -/
theorem c9_witness :
    ("items", JVal.arr c9Array)
      ∈ (redactSensitive (.cons "items" (.arr c9Array) .nil)).entries :=
  c9_arrays_unchanged (.cons "items" (.arr c9Array) .nil) "items" c9Array
    (by simp [JObj.entries]) rfl

/-- C10: isRetryable holds for exactly the five codes TIMEOUT 304,
SERVICE_UNAVAILABLE 205, NETWORK_ERROR 507, DATABASE_ERROR 505 and
RESOURCE_ERROR 307, and for no other code; in particular the execution
codes WORKFLOW_FAILED 300 and STEP_FAILED 301 are not retryable at the
exit-code level even though the category-level default
isErrorTypeRetryable holds for the execution category. -/
theorem c10_retryable :
    (∀ c : Nat, isRetryable c = true ↔
      (c = ExitCodes.TIMEOUT ∨ c = ExitCodes.SERVICE_UNAVAILABLE
        ∨ c = ExitCodes.NETWORK_ERROR ∨ c = ExitCodes.DATABASE_ERROR
        ∨ c = ExitCodes.RESOURCE_ERROR))
    ∧ isRetryable ExitCodes.WORKFLOW_FAILED = false
    ∧ isRetryable ExitCodes.STEP_FAILED = false
    ∧ isErrorTypeRetryable ErrorType.execution = true
    ∧ isErrorTypeRetryable ErrorType.user = false := by
  refine ⟨?_, rfl, rfl, rfl, rfl⟩
  intro c
  simp [isRetryable, ExitCodes.TIMEOUT, ExitCodes.SERVICE_UNAVAILABLE,
    ExitCodes.NETWORK_ERROR, ExitCodes.DATABASE_ERROR, ExitCodes.RESOURCE_ERROR]
